import Mathlib

/-!
Verification development for the Danki spaced-repetition engine
(src/danki/engine/scheduler.py and src/danki/engine/db.py).

The scheduler's state machine, the preference-update logic and the session
builder are embedded shallowly: Python floats become rationals, timestamps
become integers, the single draw of random.random() inside a transition is
passed as an explicit parameter r with 0 ≤ r < 1, and SQLite tables become
association lists.  Every definition is translated from the source file it
names; line numbers in doc comments refer to the source.
-/

namespace Danki

/-- Ratings of the 4-button system (scheduler.py lines 10-20; the numeric
values 1-4 of the IntEnum are irrelevant to the transitions). -/
inductive Rating where
  | again
  | hard
  | good
  | easy
deriving DecidableEq, Repr

/-- One row of the cards table as read by Scheduler._get_card (db.py lines
56-69): state, due timestamp, interval in days, ease factor, lapse count,
learning-step index and optional last-review timestamp. -/
structure Card where
  state : String
  due_ts : Int
  interval_days : ℚ
  ease : ℚ
  lapses : Nat
  step_index : Nat
  last_review_ts : Option Int
deriving DecidableEq, Repr

/-- The tuple returned by Scheduler._calculate_next_state (scheduler.py
line 421). -/
structure NextState where
  state : String
  due_ts : Int
  interval_days : ℚ
  ease : ℚ
  lapses : Nat
  step_index : Nat
deriving DecidableEq, Repr

/-- Python int(x): truncation toward zero (used on new_interval * 24 * 3600,
scheduler.py lines 339, 364, 378, 415). -/
def pyInt (q : ℚ) : Int :=
  if 0 ≤ q then ⌊q⌋ else -⌊-q⌋

/-- Hardcoded learning steps in minutes, scheduler.py line 306
(LEARNING_STEPS = [1, 10]). -/
def LEARNING_STEPS : List Int := [1, 10]

/-- Scheduler._apply_fuzz (scheduler.py lines 423-433).  The draw of
random.random() is the explicit parameter r ∈ [0,1), so the fuzz factor
0.95 + r * 0.1 ranges over [0.95, 1.05). -/
def apply_fuzz (interval : ℚ) (r : ℚ) : ℚ :=
  if interval < 1 then interval
  else max 1 (interval * (0.95 + r * 0.1))

/-- Scheduler._calculate_next_state (scheduler.py lines 297-421).  The card
dict supplies state, ease, interval_days, lapses, step_index and due_ts; r
is the value of random.random() consumed by the at most one _apply_fuzz
call of the taken branch. -/
def calculate_next_state (card : Card) (rating : Rating) (now_ts : Int)
    (r : ℚ) : NextState :=
  if card.state = "new" then
    -- New card → Learning state transition (lines 315-339)
    match rating with
    | .again =>
        { state := "learning", due_ts := now_ts + LEARNING_STEPS.getD 0 0 * 60,
          interval_days := 0,
          ease := if card.ease = 0 then 2.5 else card.ease,
          lapses := card.lapses, step_index := 0 }
    | .hard =>
        { state := "learning", due_ts := now_ts + LEARNING_STEPS.getD 0 0 * 60,
          interval_days := 0,
          ease := if card.ease = 0 then 2.5 else card.ease,
          lapses := card.lapses, step_index := 0 }
    | .good =>
        { state := "learning", due_ts := now_ts + LEARNING_STEPS.getD 0 0 * 60,
          interval_days := 0,
          ease := if card.ease = 0 then 2.5 else card.ease,
          lapses := card.lapses, step_index := 0 }
    | .easy =>
        let new_interval := apply_fuzz 4 r
        { state := "review", due_ts := now_ts + pyInt (new_interval * 24 * 3600),
          interval_days := new_interval,
          ease := if card.ease = 0 then 2.5 else card.ease,
          lapses := card.lapses, step_index := 0 }
  else if card.state = "learning" then
    -- Learning transitions (lines 341-379); ease unchanged, interval 0
    -- except at graduation
    match rating with
    | .again =>
        { state := "learning", due_ts := now_ts + LEARNING_STEPS.getD 0 0 * 60,
          interval_days := 0, ease := card.ease,
          lapses := card.lapses + 1, step_index := 0 }
    | .hard =>
        let step_minutes :=
          max 10 (LEARNING_STEPS.getD (min card.step_index (LEARNING_STEPS.length - 1)) 0)
        { state := "learning", due_ts := now_ts + step_minutes * 60,
          interval_days := 0, ease := card.ease,
          lapses := card.lapses, step_index := card.step_index }
    | .good =>
        if card.step_index ≥ LEARNING_STEPS.length - 1 then
          let new_interval := apply_fuzz 1 r
          { state := "review", due_ts := now_ts + pyInt (new_interval * 24 * 3600),
            interval_days := new_interval, ease := card.ease,
            lapses := card.lapses, step_index := 0 }
        else
          { state := "learning",
            due_ts := now_ts + LEARNING_STEPS.getD (card.step_index + 1) 0 * 60,
            interval_days := 0, ease := card.ease,
            lapses := card.lapses, step_index := card.step_index + 1 }
    | .easy =>
        let new_interval := apply_fuzz 4 r
        { state := "review", due_ts := now_ts + pyInt (new_interval * 24 * 3600),
          interval_days := new_interval, ease := card.ease,
          lapses := card.lapses, step_index := 0 }
  else if card.state = "review" then
    -- Review transitions (lines 381-415)
    let days_late : ℚ := max 0 ((now_ts - card.due_ts : ℤ) / (24 * 3600 : ℚ))
    match rating with
    | .again =>
        { state := "learning", due_ts := now_ts + LEARNING_STEPS.getD 0 0 * 60,
          interval_days := max 1 (card.interval_days * 0.5),
          ease := max 1.3 (card.ease - 0.2),
          lapses := card.lapses + 1, step_index := 0 }
    | .hard =>
        let new_interval := apply_fuzz (max 1.0 (card.interval_days * 1.2)) r
        { state := "review", due_ts := now_ts + pyInt (new_interval * 24 * 3600),
          interval_days := new_interval,
          ease := max 1.3 (card.ease - 0.15),
          lapses := card.lapses, step_index := 0 }
    | .good =>
        let new_interval :=
          apply_fuzz ((card.interval_days + days_late / 2) * card.ease) r
        { state := "review", due_ts := now_ts + pyInt (new_interval * 24 * 3600),
          interval_days := new_interval, ease := card.ease,
          lapses := card.lapses, step_index := 0 }
    | .easy =>
        let new_ease := card.ease + 0.15
        let new_interval :=
          apply_fuzz ((card.interval_days + days_late) * new_ease * 1.3) r
        { state := "review", due_ts := now_ts + pyInt (new_interval * 24 * 3600),
          interval_days := new_interval, ease := new_ease,
          lapses := card.lapses, step_index := 0 }
  else
    -- Suspended or unknown state: no changes (lines 416-419)
    { state := card.state, due_ts := card.due_ts,
      interval_days := card.interval_days, ease := card.ease,
      lapses := card.lapses, step_index := card.step_index }

/-- Database.update_card_after_review (db.py lines 336-351): writes the six
computed fields back and stamps last_review_ts with the wall-clock time of
the write (int(time.time()), passed here as write_ts). -/
def update_card_after_review (_card : Card) (ns : NextState)
    (write_ts : Int) : Card :=
  { state := ns.state, due_ts := ns.due_ts,
    interval_days := ns.interval_days, ease := ns.ease,
    lapses := ns.lapses, step_index := ns.step_index,
    last_review_ts := some write_ts }

/-- Scheduler.review (scheduler.py lines 227-285) restricted to its effect
on the stored card: compute the next state and persist it via
update_card_after_review.  The wall clock at write time coincides with
now_ts at the granularity of the model. -/
def gradeReview (card : Card) (rating : Rating) (now_ts : Int) (r : ℚ) : Card :=
  update_card_after_review card (calculate_next_state card rating now_ts r) now_ts

/-- Folding gradeReview over a finite sequence of (rating, time, random
draw) triples. -/
def gradeSeq (card : Card) (reviews : List (Rating × Int × ℚ)) : Card :=
  reviews.foldl (fun c rv => gradeReview c rv.1 rv.2.1 rv.2.2) card

/-- Deck preferences as created by Database.create_deck (db.py lines
118-124): new_per_day, rev_per_day, learning steps in minutes, and the
bidirectional flag. -/
structure Prefs where
  new_per_day : Int
  rev_per_day : Int
  steps_min : List Int
  bidirectional_cards : Bool
deriving DecidableEq, Repr

/-- Default preferences of Database.create_deck (db.py lines 118-124). -/
def defaultCreatePrefs : Prefs :=
  { new_per_day := 10, rev_per_day := 100, steps_min := [1, 10],
    bidirectional_cards := true }

/-- Default preferences returned by Database.get_deck_preferences for an
unknown deck (db.py lines 460-466). -/
def defaultGetPrefs : Prefs :=
  { new_per_day := 20, rev_per_day := 200, steps_min := [1, 10],
    bidirectional_cards := true }

/-- A partial preference dict passed to Database.update_deck_preferences:
each field is present (some) or absent (none). -/
structure PrefsUpdate where
  new_per_day : Option Int
  rev_per_day : Option Int
  steps_min : Option (List Int)
  bidirectional_cards : Option Bool
deriving DecidableEq, Repr

/-- The empty partial update (no keys present). -/
def PrefsUpdate.empty : PrefsUpdate :=
  { new_per_day := none, rev_per_day := none, steps_min := none,
    bidirectional_cards := none }

/-- Database.update_deck_preferences (db.py lines 468-483): merge the
partial dict over the current preferences (dict.update), then, if the
update contained the key new_per_day, overwrite rev_per_day with
new_per_day * 10.  No validation or clamping is performed. -/
def update_deck_preferences (current : Prefs) (u : PrefsUpdate) : Prefs :=
  let merged : Prefs :=
    { new_per_day := u.new_per_day.getD current.new_per_day,
      rev_per_day := u.rev_per_day.getD current.rev_per_day,
      steps_min := u.steps_min.getD current.steps_min,
      bidirectional_cards :=
        u.bidirectional_cards.getD current.bidirectional_cards }
  if u.new_per_day.isSome then
    { merged with rev_per_day := merged.new_per_day * 10 }
  else
    merged

/-- The full grading pipeline as invoked on a card belonging to a deck with
preferences prefs.  Scheduler.review (scheduler.py lines 227-285) never
reads the deck preferences: _calculate_next_state hardcodes
LEARNING_STEPS = [1, 10] (line 306) instead of consulting the stored
steps_min, so the prefs argument is ignored exactly as in the source. -/
def gradeReviewWithDeckPrefs (_prefs : Prefs) (card : Card) (rating : Rating)
    (now_ts : Int) (r : ℚ) : Card :=
  gradeReview card rating now_ts r

/-- Card view dict produced by Database._rows_to_card_dicts and
get_cards_for_review (db.py lines 275-291, 320-334), restricted to the
fields the session builder inspects. -/
structure SessionCard where
  card_id : String
  note_id : String
  state : String
  due_ts : Int
  interval_days : ℚ
  ease : ℚ
  lapses : Nat
  step_index : Nat
deriving DecidableEq, Repr

/-- Daily statistics row for one deck and the current study date (db.py
lines 430-440). -/
structure DailyStats where
  new_studied : Int
  rev_studied : Int
deriving DecidableEq, Repr

/-- The persistent store visible to one build_session call: the cards
table (joined rows), the notes table projected to note_id → deck_id, the
decks table projected to deck_id → prefs, and the daily_stats rows of the
current study date projected to deck_id → counters. -/
structure Store where
  cards : List SessionCard
  notes : List (String × String)
  decks : List (String × Prefs)
  daily_stats : List (String × DailyStats)

/-- Database.get_deck_preferences (db.py lines 454-466): the stored prefs
row, or the defaults when the deck is unknown. -/
def get_deck_preferences (db : Store) (deck_id : String) : Prefs :=
  ((db.decks.lookup deck_id).getD defaultGetPrefs)

/-- Database.get_daily_stats (db.py lines 430-440): the stored counters for
the current study date, or zeros. -/
def get_daily_stats (db : Store) (deck_id : String) : DailyStats :=
  ((db.daily_stats.lookup deck_id).getD { new_studied := 0, rev_studied := 0 })

/-- Deck of a card, via the notes table (build_session falls back to a
SELECT on notes because the card dict carries no deck_id; scheduler.py
lines 122-126). -/
def cardDeck (db : Store) (c : SessionCard) : Option String :=
  db.notes.lookup c.note_id

/-- Database.get_cards_for_review (db.py lines 293-334): rows of the
requested decks that are due now, or are learning cards due within the
1800-second session window, excluding suspended cards, ordered by due
timestamp (ties are left in table order; the SQL leaves them
unspecified). -/
def get_cards_for_review (db : Store) (deck_ids : List String)
    (now_ts : Int) : List SessionCard :=
  List.insertionSort (fun a b => a.due_ts ≤ b.due_ts)
    (db.cards.filter (fun c =>
      (match cardDeck db c with
       | some d => deck_ids.contains d
       | none => false) &&
      (c.due_ts ≤ now_ts || (c.state = "learning" && c.due_ts ≤ now_ts + 1800)) &&
      c.state ≠ "suspended"))

/-- Python list slicing lst[:k]: a nonnegative k takes the first k
elements; a negative k drops the last |k| elements. -/
def pySlice {α : Type} (l : List α) (k : Int) : List α :=
  if 0 ≤ k then l.take k.toNat else l.take (l.length - (-k).toNat)

/-- Keys of a Python dict in insertion order: first occurrence of each
deck id in the traversal order of new_cards + review_cards (scheduler.py
lines 120-135). -/
def firstOccurrences : List String → List String → List String
  | [], _ => []
  | x :: xs, seen =>
      if seen.contains x then firstOccurrences xs seen
      else x :: firstOccurrences xs (x :: seen)

/-- The while loop of Scheduler._build_anki_session (scheduler.py lines
196-220).  Every iteration removes exactly one card from one of the three
pools, so the loop runs exactly |learning| + |new| + |review| times; fuel
is that total and the fuel-exhausted base case is unreachable. -/
def buildLoop : Nat → List SessionCard → List SessionCard →
    List SessionCard → List SessionCard → Nat → List SessionCard
  | 0, session, _, _, _, _ => session
  | Nat.succ fuel, session, learning_pool, new_pool, review_pool,
      cards_since_learning =>
    if learning_pool.isEmpty ∧ new_pool.isEmpty ∧ review_pool.isEmpty then
      session
    else if ¬ learning_pool.isEmpty ∧ cards_since_learning ≥ 3 then
      buildLoop fuel (session ++ learning_pool.take 1) (learning_pool.drop 1)
        new_pool review_pool 0
    else if ¬ new_pool.isEmpty ∧ session.length % 4 = 1 then
      buildLoop fuel (session ++ new_pool.take 1) learning_pool
        (new_pool.drop 1) review_pool (cards_since_learning + 1)
    else if ¬ review_pool.isEmpty then
      buildLoop fuel (session ++ review_pool.take 1) learning_pool
        new_pool (review_pool.drop 1) (cards_since_learning + 1)
    else if ¬ new_pool.isEmpty then
      buildLoop fuel (session ++ new_pool.take 1) learning_pool
        (new_pool.drop 1) review_pool (cards_since_learning + 1)
    else if ¬ learning_pool.isEmpty then
      buildLoop fuel (session ++ learning_pool.take 1) (learning_pool.drop 1)
        new_pool review_pool 0
    else
      session

/-- Scheduler._build_anki_session (scheduler.py lines 175-225): interleave
the pools with the loop above, then append the future learning cards. -/
def build_anki_session_merge (learning_cards new_cards review_cards
    future_learning : List SessionCard) : List SessionCard :=
  buildLoop (learning_cards.length + new_cards.length + review_cards.length)
    [] learning_cards new_cards review_cards 0 ++ future_learning

/-- Remaining daily allowance of new cards for one deck, as computed by
build_session (scheduler.py line 147): max(0, new_per_day − new_studied). -/
def new_remaining (prefs : Prefs) (stats : DailyStats) : Int :=
  max 0 (prefs.new_per_day - stats.new_studied)

/-- Remaining daily allowance of review cards for one deck, as computed by
build_session (scheduler.py line 148): max(0, rev_per_day − rev_studied). -/
def rev_remaining (prefs : Prefs) (stats : DailyStats) : Int :=
  max 0 (prefs.rev_per_day - stats.rev_studied)

/-- Scheduler.build_session (scheduler.py lines 95-173): fetch due cards,
split them by state, apply per-deck daily limits to the new and review
pools (in the first-appearance order of the decks, Python dict order),
split learning cards at the 1800-second session horizon, and interleave.
No sibling burying is applied on this path. -/
def build_session (db : Store) (deck_ids : List String) (now_ts : Int)
    (max_new : Option Int) (max_rev : Option Int) : List SessionCard :=
  if deck_ids.isEmpty then []
  else
    let cards := get_cards_for_review db deck_ids now_ts
    let new_cards := cards.filter (fun c => c.state = "new")
    let learning_cards := cards.filter (fun c => c.state = "learning")
    let review_cards := cards.filter (fun c => c.state = "review")
    let deck_order := firstOccurrences
      ((new_cards ++ review_cards).filterMap (cardDeck db)) []
    let filtered := deck_order.foldl (fun (acc : List SessionCard × List SessionCard) d =>
      let deck_new := new_cards.filter (fun c => cardDeck db c = some d)
      let deck_review := review_cards.filter (fun c => cardDeck db c = some d)
      let prefs := get_deck_preferences db d
      let stats := get_daily_stats db d
      let nrem := new_remaining prefs stats
      let rrem := rev_remaining prefs stats
      let nrem := match max_new with
        | some m => min nrem (m - (acc.1.length : Int))
        | none => nrem
      let rrem := match max_rev with
        | some m => min rrem (m - (acc.2.length : Int))
        | none => rrem
      (acc.1 ++ pySlice deck_new nrem,
       acc.2 ++ pySlice deck_review rrem)) ([], [])
    let due_learning := learning_cards.filter (fun c => c.due_ts ≤ now_ts + 1800)
    let future_learning := learning_cards.filter (fun c => ¬ c.due_ts ≤ now_ts + 1800)
    build_anki_session_merge due_learning filtered.1 filtered.2 future_learning

/-- The three pools returned by Scheduler._apply_sibling_burying
(scheduler.py lines 449-487). -/
structure Pools where
  learning : List SessionCard
  review : List SessionCard
  new : List SessionCard
deriving DecidableEq, Repr

/-- Scheduler._apply_sibling_burying (scheduler.py lines 449-487): when the
learning pool is non-empty, drop from the review and new pools every card
whose note already has a card in the learning pool; learning cards are
never buried. -/
def apply_sibling_burying (learning_cards review_cards new_cards :
    List SessionCard) : Pools :=
  if learning_cards.isEmpty then
    { learning := learning_cards, review := review_cards, new := new_cards }
  else
    let buried_notes := learning_cards.map (fun c => c.note_id)
    { learning := learning_cards,
      review := review_cards.filter (fun c => c.note_id ∉ buried_notes),
      new := new_cards.filter (fun c => c.note_id ∉ buried_notes) }

/-- The while loop of Scheduler._interleave_anki_style (scheduler.py lines
524-557); fuel as in buildLoop. -/
def interleaveLoop : Nat → List SessionCard → List SessionCard →
    List SessionCard → List SessionCard → Nat → List SessionCard
  | 0, session, _, _, _, _ => session
  | Nat.succ fuel, session, learning_pool, review_pool, new_pool,
      cards_since_learning =>
    if learning_pool.isEmpty ∧ review_pool.isEmpty ∧ new_pool.isEmpty then
      session
    else if ¬ learning_pool.isEmpty ∧
        (cards_since_learning ≥ 3 ∨ (review_pool.isEmpty ∧ new_pool.isEmpty)) then
      interleaveLoop fuel (session ++ learning_pool.take 1)
        (learning_pool.drop 1) review_pool new_pool 0
    else if ¬ review_pool.isEmpty ∧ session.length % 4 ≠ 1 then
      interleaveLoop fuel (session ++ review_pool.take 1) learning_pool
        (review_pool.drop 1) new_pool (cards_since_learning + 1)
    else if ¬ new_pool.isEmpty then
      interleaveLoop fuel (session ++ new_pool.take 1) learning_pool
        review_pool (new_pool.drop 1) (cards_since_learning + 1)
    else if ¬ review_pool.isEmpty then
      interleaveLoop fuel (session ++ review_pool.take 1) learning_pool
        (review_pool.drop 1) new_pool (cards_since_learning + 1)
    else if ¬ learning_pool.isEmpty then
      interleaveLoop fuel (session ++ learning_pool.take 1)
        (learning_pool.drop 1) review_pool new_pool 0
    else
      session

/-- Scheduler._interleave_anki_style (scheduler.py lines 507-560). -/
def interleave_anki_style (pools : Pools) : List SessionCard :=
  interleaveLoop (pools.learning.length + pools.review.length + pools.new.length)
    [] pools.learning pools.review pools.new 0

/-- A session violates the sibling property when it contains a learning
card and a review or new card of the same note. -/
def hasLearningSiblingConflict (session : List SessionCard) : Bool :=
  session.any (fun c1 => c1.state = "learning" &&
    session.any (fun c2 =>
      (c2.state = "review" || c2.state = "new") && c2.note_id = c1.note_id))

/-- A suspended card that has never been reviewed, used as a concrete
input. -/
def suspExample : Card :=
  { state := "suspended", due_ts := 1000, interval_days := 5, ease := 2.5,
    lapses := 2, step_index := 0, last_review_ts := none }

/-- A learning card that has never graduated: it just moved new → learning,
so interval, lapses and step index are all 0. -/
def freshLearningExample : Card :=
  { state := "learning", due_ts := 60, interval_days := 0, ease := 2.5,
    lapses := 0, step_index := 0, last_review_ts := some 0 }

/-- A review card used as a concrete input. -/
def reviewExample : Card :=
  { state := "review", due_ts := 1000, interval_days := 6, ease := 2.5,
    lapses := 0, step_index := 0, last_review_ts := some 0 }

/-- C1 counterexample: grading the suspended card suspExample (whose
last_review_ts is none) does change a stored field, because
update_card_after_review stamps last_review_ts with the write time. -/
theorem grade_suspended_changes_last_review_ts_cex :
    ¬ (gradeReview suspExample Rating.good 2000 0 = suspExample) := by
  intro h
  have h2 := congrArg Card.last_review_ts h
  simp [gradeReview, update_card_after_review, suspExample] at h2

/-- C1 (amended): for every suspended card, grading with any rating, time
and random draw leaves state, due time, interval, ease, lapses and step
index unchanged, and overwrites only last_review_ts with the update
time. -/
theorem grade_suspended_updates_only_last_review_ts (c : Card)
    (rating : Rating) (now_ts : Int) (r : ℚ) (h : c.state = "suspended") :
    gradeReview c rating now_ts r = { c with last_review_ts := some now_ts } := by
  obtain ⟨s, due, i, e, l, si, lr⟩ := c
  dsimp only at h
  subst h
  cases rating <;> rfl

/-- C1 witness: the amended theorem applied to the concrete suspended
card. -/
theorem grade_suspended_updates_only_last_review_ts_witness :
    gradeReview suspExample Rating.good 2000 0 =
      { suspExample with last_review_ts := some 2000 } :=
  grade_suspended_updates_only_last_review_ts suspExample Rating.good 2000 0 rfl

/-- C2 counterexample: a learning card that never graduated (fresh from
new → learning, lapses = 0) still has its lapse counter incremented when
rated Again, contradicting the claim that lapses stay unchanged. -/
theorem learning_again_increments_fresh_lapses_cex :
    ¬ ((gradeReview freshLearningExample Rating.again 100 0).lapses =
        freshLearningExample.lapses) := by
  decide

/-- C2 (amended): rating Again on any Learning card resets the step index
to 0, sets due to now + learning_steps[0] minutes (= now + 60 seconds),
and always increments the lapse counter by exactly 1, whether or not the
card ever graduated. -/
theorem learning_again_resets_step_and_increments_lapses (c : Card)
    (now_ts : Int) (r : ℚ) (h : c.state = "learning") :
    (calculate_next_state c .again now_ts r).step_index = 0 ∧
    (calculate_next_state c .again now_ts r).due_ts = now_ts + 60 ∧
    (calculate_next_state c .again now_ts r).lapses = c.lapses + 1 := by
  obtain ⟨s, due, i, e, l, si, lr⟩ := c
  dsimp only at h
  subst h
  exact ⟨rfl, rfl, rfl⟩

/-- C2 witness: the amended theorem applied to the concrete fresh learning
card. -/
theorem learning_again_resets_step_and_increments_lapses_witness :
    (calculate_next_state freshLearningExample .again 100 0).step_index = 0 ∧
    (calculate_next_state freshLearningExample .again 100 0).due_ts = 100 + 60 ∧
    (calculate_next_state freshLearningExample .again 100 0).lapses =
      freshLearningExample.lapses + 1 :=
  learning_again_resets_step_and_increments_lapses freshLearningExample 100 0 rfl

/-- Partial update supplying both new_per_day and an explicit rev_per_day. -/
def bothLimitsUpdate : PrefsUpdate :=
  { PrefsUpdate.empty with new_per_day := some 5, rev_per_day := some 7 }

/-- C3 counterexample: an explicit rev_per_day of 7 supplied together with
new_per_day = 5 is overwritten by the derivation to 50, so the explicit
value is not respected. -/
theorem update_prefs_overwrites_explicit_rev_cex :
    (update_deck_preferences defaultCreatePrefs bothLimitsUpdate).rev_per_day = 50 ∧
    bothLimitsUpdate.rev_per_day = some 7 := by
  decide

/-- C3 (amended): whenever new_per_day is part of the update,
update_deck_preferences re-derives rev_per_day as new_per_day × 10,
overwriting even an explicitly supplied rev_per_day; an explicit
rev_per_day is respected only when new_per_day is absent from the
update. -/
theorem update_prefs_rev_per_day_rederivation (cur : Prefs) (u : PrefsUpdate) :
    (∀ n, u.new_per_day = some n →
      (update_deck_preferences cur u).rev_per_day = n * 10) ∧
    (u.new_per_day = none → ∀ v, u.rev_per_day = some v →
      (update_deck_preferences cur u).rev_per_day = v) := by
  constructor
  · intro n hn
    simp [update_deck_preferences, hn]
  · intro hn v hv
    simp [update_deck_preferences, hn, hv]

/-- C3 witness: the amended theorem applied to concrete updates. -/
theorem update_prefs_rev_per_day_rederivation_witness :
    (update_deck_preferences defaultCreatePrefs bothLimitsUpdate).rev_per_day = 5 * 10 ∧
    (update_deck_preferences defaultCreatePrefs
      { PrefsUpdate.empty with rev_per_day := some 7 }).rev_per_day = 7 :=
  ⟨(update_prefs_rev_per_day_rederivation defaultCreatePrefs bothLimitsUpdate).1 5 rfl,
   (update_prefs_rev_per_day_rederivation defaultCreatePrefs
      { PrefsUpdate.empty with rev_per_day := some 7 }).2 rfl 7 rfl⟩

/-- C6: rating Again on any Review card produces the Learning state at step
0, due at now + learning_steps[0] minutes (= now + 60 seconds), interval
max(1, I × 0.5), ease max(1.3, E − 0.2), and the lapse counter incremented
by exactly 1. -/
theorem review_again_lapse_transition (c : Card) (now_ts : Int) (r : ℚ)
    (h : c.state = "review") :
    calculate_next_state c .again now_ts r =
      { state := "learning", due_ts := now_ts + 60,
        interval_days := max 1 (c.interval_days * 0.5),
        ease := max 1.3 (c.ease - 0.2),
        lapses := c.lapses + 1, step_index := 0 } := by
  obtain ⟨s, due, i, e, l, si, lr⟩ := c
  dsimp only at h
  subst h
  rfl

/-- C6 witness: the transition evaluated on the concrete review card with
interval 6 and ease 2.5. -/
theorem review_again_lapse_transition_witness :
    calculate_next_state reviewExample .again 5000 0 =
      { state := "learning", due_ts := 5000 + 60,
        interval_days := max 1 (reviewExample.interval_days * 0.5),
        ease := max 1.3 (reviewExample.ease - 0.2),
        lapses := reviewExample.lapses + 1, step_index := 0 } :=
  review_again_lapse_transition reviewExample 5000 0 rfl

/-- C9: the grading pipeline is identical for any two values of the deck
preferences (in particular of the stored learning-step list steps_min),
because the state machine hardcodes the step list [1, 10] minutes and
Scheduler.review never consults the deck preferences. -/
theorem steps_min_noninterference (p1 p2 : Prefs) (c : Card)
    (rating : Rating) (now_ts : Int) (r : ℚ) :
    gradeReviewWithDeckPrefs p1 c rating now_ts r =
      gradeReviewWithDeckPrefs p2 c rating now_ts r ∧
    LEARNING_STEPS = [1, 10] :=
  ⟨rfl, rfl⟩

/-- Helper for C5: one grading step preserves the 1.3 ease floor. -/
theorem ease_floor_step (c : Card) (rating : Rating) (now_ts : Int) (r : ℚ)
    (h : 1.3 ≤ c.ease) : 1.3 ≤ (gradeReview c rating now_ts r).ease := by
  obtain ⟨s, due, i, e, l, si, lr⟩ := c
  dsimp only at h
  cases rating <;>
    simp only [gradeReview, update_card_after_review, calculate_next_state] <;>
    split_ifs <;> dsimp only <;>
    first
      | assumption
      | linarith [le_max_left (1.3 : ℚ) (e - 0.2), le_max_left (1.3 : ℚ) (e - 0.15)]

/-- C5: for every card whose ease is at least 1.3 (the default 2.5 in
particular) and every finite sequence of gradings with arbitrary ratings,
times and random draws, the ease factor is at least 1.3 after the whole
sequence (and hence after every step, each prefix being such a
sequence). -/
theorem ease_floor_invariant (c : Card) (reviews : List (Rating × Int × ℚ))
    (h : 1.3 ≤ c.ease) : 1.3 ≤ (gradeSeq c reviews).ease := by
  induction reviews generalizing c with
  | nil => exact h
  | cons hd tl ih =>
      exact ih (gradeReview c hd.1 hd.2.1 hd.2.2) (ease_floor_step c hd.1 hd.2.1 hd.2.2 h)

/-- C5 witness: a concrete three-review sequence starting from the default
ease 2.5. -/
theorem ease_floor_invariant_witness :
    1.3 ≤ (gradeSeq freshLearningExample
      [(.again, 100, 0), (.good, 200, 1/2), (.hard, 300, 1/4)]).ease :=
  ease_floor_invariant freshLearningExample
    [(.again, 100, 0), (.good, 200, 1/2), (.hard, 300, 1/4)] (by norm_num [freshLearningExample])

/-- Helper: reduction of the Good transition on a Learning card at (or
past) the final learning step — the graduation branch of
_calculate_next_state (scheduler.py lines 358-365). -/
theorem calc_learning_good_graduate (c : Card) (now_ts : Int) (r : ℚ)
    (h : c.state = "learning")
    (hstep : LEARNING_STEPS.length - 1 ≤ c.step_index) :
    calculate_next_state c .good now_ts r =
      { state := "review",
        due_ts := now_ts + pyInt (apply_fuzz 1 r * 24 * 3600),
        interval_days := apply_fuzz 1 r, ease := c.ease,
        lapses := c.lapses, step_index := 0 } := by
  obtain ⟨s, due, i, e, l, si, lr⟩ := c
  dsimp only at h hstep ⊢
  subst h
  simp only [calculate_next_state, String.reduceEq, reduceIte, ge_iff_le,
    if_pos hstep]

/-- C8: graduating from the final learning step with Good yields the
Review state with an interval inside [0.95, 1.05] days, and in general
fuzzing a computed interval of at least one day with a draw r ∈ [0,1)
yields a value within ±5 percent of the input. -/
theorem graduating_interval_fuzz_bounds :
    (∀ (c : Card) (now_ts : Int) (r : ℚ), 0 ≤ r → r < 1 →
      c.state = "learning" → LEARNING_STEPS.length - 1 ≤ c.step_index →
      (calculate_next_state c .good now_ts r).state = "review" ∧
      0.95 ≤ (calculate_next_state c .good now_ts r).interval_days ∧
      (calculate_next_state c .good now_ts r).interval_days ≤ 1.05) ∧
    (∀ (I r : ℚ), 0 ≤ r → r < 1 → 1 ≤ I →
      0.95 * I ≤ apply_fuzz I r ∧ apply_fuzz I r ≤ 1.05 * I) := by
  have fuzz_bounds : ∀ (I r : ℚ), 0 ≤ r → r < 1 → 1 ≤ I →
      0.95 * I ≤ apply_fuzz I r ∧ apply_fuzz I r ≤ 1.05 * I := by
    intro I r hr0 hr1 hI
    have hnlt : ¬ I < 1 := not_lt.mpr hI
    simp only [apply_fuzz, if_neg hnlt]
    constructor
    · exact le_trans (by nlinarith) (le_max_right 1 (I * (0.95 + r * 0.1)))
    · exact max_le (by linarith) (by nlinarith)
  constructor
  · intro c now_ts r hr0 hr1 hst hstep
    rw [calc_learning_good_graduate c now_ts r hst hstep]
    obtain ⟨hlow, hhigh⟩ := fuzz_bounds 1 r hr0 hr1 le_rfl
    refine ⟨rfl, ?_, ?_⟩
    · dsimp only
      linarith
    · dsimp only
      linarith
  · exact fuzz_bounds

/-- C10: when a card in the Learning state sits at (or past) the final
learning step, grading Good produces the fuzzed one-day graduating
interval, and the result is entirely independent of the interval stored on
the card (in particular of the max(1, I × 0.5) value stored at lapse
time). -/
theorem regraduation_ignores_stored_interval (c : Card) (now_ts : Int)
    (r : ℚ) (h : c.state = "learning")
    (hstep : LEARNING_STEPS.length - 1 ≤ c.step_index) :
    (calculate_next_state c .good now_ts r).interval_days = apply_fuzz 1 r ∧
    (∀ I : ℚ, calculate_next_state { c with interval_days := I } .good now_ts r =
      calculate_next_state c .good now_ts r) := by
  constructor
  · rw [calc_learning_good_graduate c now_ts r h hstep]
  · intro I
    rw [calc_learning_good_graduate { c with interval_days := I } now_ts r h hstep,
      calc_learning_good_graduate c now_ts r h hstep]

/-- A learning card sitting at the final learning step. -/
def finalStepLearningExample : Card :=
  { state := "learning", due_ts := 600, interval_days := 0, ease := 2,
    lapses := 0, step_index := 1, last_review_ts := some 0 }

/-- A learning card that lapsed out of review: the post-lapse interval 3
(= max(1, 6 × 0.5)) is stored and the card sits at the final learning
step. -/
def lapsedLearningExample : Card :=
  { state := "learning", due_ts := 60, interval_days := 3, ease := 2,
    lapses := 1, step_index := 1, last_review_ts := some 0 }

/-- C8 witness: the bounds evaluated at the concrete final-step card with
draw r = 1/2 and at the concrete interval 2. -/
theorem graduating_interval_fuzz_bounds_witness :
    (calculate_next_state finalStepLearningExample .good 0 (1/2)).state = "review" ∧
    0.95 ≤ (calculate_next_state finalStepLearningExample .good 0 (1/2)).interval_days ∧
    (calculate_next_state finalStepLearningExample .good 0 (1/2)).interval_days ≤ 1.05 ∧
    0.95 * 2 ≤ apply_fuzz 2 (1/2) ∧ apply_fuzz 2 (1/2) ≤ 1.05 * 2 := by
  obtain ⟨h1, h2, h3⟩ := graduating_interval_fuzz_bounds.1 finalStepLearningExample
    0 (1/2) (by norm_num) (by norm_num) rfl (by decide)
  obtain ⟨h4, h5⟩ := graduating_interval_fuzz_bounds.2 2 (1/2)
    (by norm_num) (by norm_num) (by norm_num)
  exact ⟨h1, h2, h3, h4, h5⟩

/-- C10 witness: the lapsed card regraduates with the fuzzed one-day
interval, and replacing its stored interval 3 by 99 changes nothing. -/
theorem regraduation_ignores_stored_interval_witness :
    (calculate_next_state lapsedLearningExample .good 0 (1/2)).interval_days =
      apply_fuzz 1 (1/2) ∧
    calculate_next_state { lapsedLearningExample with interval_days := 99 }
        .good 0 (1/2) =
      calculate_next_state lapsedLearningExample .good 0 (1/2) := by
  obtain ⟨h1, h2⟩ := regraduation_ignores_stored_interval lapsedLearningExample
    0 (1/2) rfl (by decide)
  exact ⟨h1, h2 99⟩

/-- C7 counterexample: updating a deck with new_per_day = −5 stores the
negative limit verbatim (and derives rev_per_day = −50), instead of
clamping the stored preference to a safe default. -/
theorem negative_prefs_stored_cex :
    (update_deck_preferences defaultCreatePrefs
      { PrefsUpdate.empty with new_per_day := some (-5) }).new_per_day = -5 ∧
    (update_deck_preferences defaultCreatePrefs
      { PrefsUpdate.empty with new_per_day := some (-5) }).rev_per_day = -50 := by
  decide

/-- C7 (amended): invalid preference values are stored unmodified rather
than clamped; safety comes at use time: the session builder clamps each
remaining daily allowance to max(0, limit − studied), which is never
negative and is exactly 0 under a negative stored limit, and the grading
pipeline ignores the stored learning-step list entirely, so an empty list
cannot break scheduling. -/
theorem invalid_prefs_stored_verbatim_clamped_at_use (cur : Prefs) (n : Int)
    (p : Prefs) (s : DailyStats) (hneg : p.new_per_day < 0)
    (hs : 0 ≤ s.new_studied) :
    (update_deck_preferences cur
      { PrefsUpdate.empty with new_per_day := some n }).new_per_day = n ∧
    0 ≤ new_remaining p s ∧ 0 ≤ rev_remaining p s ∧
    new_remaining p s = 0 ∧
    (∀ (steps : List Int) (c : Card) (rating : Rating) (now_ts : Int) (r : ℚ),
      gradeReviewWithDeckPrefs { p with steps_min := steps } c rating now_ts r =
        gradeReviewWithDeckPrefs p c rating now_ts r) := by
  refine ⟨?_, le_max_left 0 _, le_max_left 0 _, ?_, fun _ _ _ _ _ => rfl⟩
  · simp [update_deck_preferences, PrefsUpdate.empty]
  · exact max_eq_left (by linarith)

/-- C7 witness: the amended theorem at a concrete deck whose stored
new_per_day is −5 with zero cards studied today. -/
theorem invalid_prefs_stored_verbatim_clamped_at_use_witness :
    (update_deck_preferences defaultCreatePrefs
      { PrefsUpdate.empty with new_per_day := some (-5) }).new_per_day = -5 ∧
    0 ≤ new_remaining { defaultCreatePrefs with new_per_day := -5 }
      { new_studied := 0, rev_studied := 0 } ∧
    0 ≤ rev_remaining { defaultCreatePrefs with new_per_day := -5 }
      { new_studied := 0, rev_studied := 0 } ∧
    new_remaining { defaultCreatePrefs with new_per_day := -5 }
      { new_studied := 0, rev_studied := 0 } = 0 ∧
    (∀ (steps : List Int) (c : Card) (rating : Rating) (now_ts : Int) (r : ℚ),
      gradeReviewWithDeckPrefs
          { { defaultCreatePrefs with new_per_day := -5 } with steps_min := steps }
          c rating now_ts r =
        gradeReviewWithDeckPrefs { defaultCreatePrefs with new_per_day := -5 }
          c rating now_ts r) :=
  invalid_prefs_stored_verbatim_clamped_at_use defaultCreatePrefs (-5)
    { defaultCreatePrefs with new_per_day := -5 }
    { new_studied := 0, rev_studied := 0 } (by decide) (by decide)

/-- A learning card of note n1, used in the session-builder scenario. -/
def learnCardExample : SessionCard :=
  { card_id := "c1", note_id := "n1", state := "learning", due_ts := 5,
    interval_days := 0, ease := 2, lapses := 1, step_index := 0 }

/-- A new card of the same note n1 (its sibling). -/
def newCardExample : SessionCard :=
  { card_id := "c2", note_id := "n1", state := "new", due_ts := 10,
    interval_days := 0, ease := 2, lapses := 0, step_index := 0 }

/-- A store with one deck holding the two sibling cards above. -/
def storeExample : Store :=
  { cards := [learnCardExample, newCardExample],
    notes := [("n1", "d1")],
    decks := [("d1", defaultCreatePrefs)],
    daily_stats := [] }

/-- C4 counterexample: build_session applies no sibling burying, so with
one learning card and its new sibling both due it returns both — the
resulting queue contains two cards of the same item, one learning and one
new. -/
theorem build_session_sibling_conflict_cex :
    hasLearningSiblingConflict (build_session storeExample ["d1"] 100 none none)
      = true := by
  decide

/-- Helper: every card of the interleaved session comes from the initial
session accumulator or one of the three pools. -/
theorem mem_interleaveLoop (x : SessionCard) (fuel : Nat) :
    ∀ (session l r n : List SessionCard) (csl : Nat),
      x ∈ interleaveLoop fuel session l r n csl →
      x ∈ session ∨ x ∈ l ∨ x ∈ r ∨ x ∈ n := by
  induction fuel with
  | zero =>
      intro session l r n csl hx
      exact Or.inl hx
  | succ fuel ih =>
      intro session l r n csl hx
      simp only [interleaveLoop] at hx
      split_ifs at hx <;>
      first
        | exact Or.inl hx
        | rcases ih _ _ _ _ _ hx with h | h | h | h <;>
          first
            | exact Or.inr (Or.inl h)
            | exact Or.inr (Or.inr (Or.inl h))
            | exact Or.inr (Or.inr (Or.inr h))
            | exact Or.inr (Or.inl (List.drop_subset 1 _ h))
            | exact Or.inr (Or.inr (Or.inl (List.drop_subset 1 _ h)))
            | exact Or.inr (Or.inr (Or.inr (List.drop_subset 1 _ h)))
            | (rcases List.mem_append.mp h with h2 | h2 <;>
                first
                  | exact Or.inl h2
                  | exact Or.inr (Or.inl (List.take_subset 1 _ h2))
                  | exact Or.inr (Or.inr (Or.inl (List.take_subset 1 _ h2)))
                  | exact Or.inr (Or.inr (Or.inr (List.take_subset 1 _ h2))))

/-- Helper: the learning pool passes through _apply_sibling_burying
unchanged. -/
theorem burying_learning_eq (l r n : List SessionCard) :
    (apply_sibling_burying l r n).learning = l := by
  by_cases h : l.isEmpty <;> simp [apply_sibling_burying, h]

/-- Helper: a card of the buried review pool is a review-pool card whose
note has no learning sibling (unless the learning pool was empty). -/
theorem mem_burying_review (l r n : List SessionCard) (c : SessionCard)
    (hc : c ∈ (apply_sibling_burying l r n).review) :
    c ∈ r ∧ (l = [] ∨ c.note_id ∉ l.map (fun x => x.note_id)) := by
  by_cases h : l.isEmpty
  · simp only [apply_sibling_burying, if_pos h] at hc
    exact ⟨hc, Or.inl (List.isEmpty_iff.mp h)⟩
  · simp only [apply_sibling_burying, if_neg h] at hc
    have h2 := List.mem_filter.mp hc
    refine ⟨h2.1, Or.inr ?_⟩
    simpa using h2.2

/-- Helper: same as mem_burying_review for the new pool. -/
theorem mem_burying_new (l r n : List SessionCard) (c : SessionCard)
    (hc : c ∈ (apply_sibling_burying l r n).new) :
    c ∈ n ∧ (l = [] ∨ c.note_id ∉ l.map (fun x => x.note_id)) := by
  by_cases h : l.isEmpty
  · simp only [apply_sibling_burying, if_pos h] at hc
    exact ⟨hc, Or.inl (List.isEmpty_iff.mp h)⟩
  · simp only [apply_sibling_burying, if_neg h] at hc
    have h2 := List.mem_filter.mp hc
    refine ⟨h2.1, Or.inr ?_⟩
    simpa using h2.2

/-- C4 (amended): the interleaved builder build_anki_session does satisfy
the property: once _apply_sibling_burying has run, interleaving any
reordering of the buried pools (which is all the anti-clustering fuzz can
produce) never yields a queue holding a Learning card together with a
Review or New card of the same item. -/
theorem burying_interleave_no_sibling_conflict
    (l r n l2 r2 n2 : List SessionCard)
    (hl : ∀ c ∈ l, c.state = "learning")
    (hr : ∀ c ∈ r, c.state = "review")
    (hn : ∀ c ∈ n, c.state = "new")
    (hl2 : ∀ c ∈ l2, c ∈ (apply_sibling_burying l r n).learning)
    (hr2 : ∀ c ∈ r2, c ∈ (apply_sibling_burying l r n).review)
    (hn2 : ∀ c ∈ n2, c ∈ (apply_sibling_burying l r n).new) :
    hasLearningSiblingConflict (interleave_anki_style ⟨l2, r2, n2⟩) = false := by
  by_contra hconf
  rw [Bool.not_eq_false] at hconf
  simp only [hasLearningSiblingConflict, List.any_eq_true, Bool.and_eq_true,
    Bool.or_eq_true, decide_eq_true_eq] at hconf
  obtain ⟨c1, hc1mem, hc1state, c2, hc2mem, hc2state, hc2note⟩ := hconf
  have hmem1 := mem_interleaveLoop c1 _ [] l2 r2 n2 0 hc1mem
  have hmem2 := mem_interleaveLoop c2 _ [] l2 r2 n2 0 hc2mem
  simp only [List.not_mem_nil, false_or] at hmem1 hmem2
  -- c1 carries state "learning", so it can only come from l2, hence from l
  have hc1l : c1 ∈ l := by
    rcases hmem1 with h | h | h
    · have h2 := hl2 c1 h
      rwa [burying_learning_eq l r n] at h2
    · have h2 := hr c1 (mem_burying_review l r n c1 (hr2 c1 h)).1
      rw [hc1state] at h2
      exact absurd h2 (by decide)
    · have h2 := hn c1 (mem_burying_new l r n c1 (hn2 c1 h)).1
      rw [hc1state] at h2
      exact absurd h2 (by decide)
  have hlne : l ≠ [] := List.ne_nil_of_mem hc1l
  have hc1note : c1.note_id ∈ l.map (fun x => x.note_id) :=
    List.mem_map_of_mem (fun x => x.note_id) hc1l
  -- c2 carries state "review" or "new", so it survived a burying filter
  have hc2filtered : c2.note_id ∉ l.map (fun x => x.note_id) := by
    rcases hmem2 with h | h | h
    · have h2 := hl2 c2 h
      rw [burying_learning_eq l r n] at h2
      have h3 := hl c2 h2
      rcases hc2state with h4 | h4 <;> rw [h4] at h3 <;> exact absurd h3 (by decide)
    · rcases (mem_burying_review l r n c2 (hr2 c2 h)).2 with h2 | h2
      · exact absurd h2 hlne
      · exact h2
    · rcases (mem_burying_new l r n c2 (hn2 c2 h)).2 with h2 | h2
      · exact absurd h2 hlne
      · exact h2
  exact hc2filtered (hc2note ▸ hc1note)

/-- C4 witness: the amended theorem applied to the concrete sibling pair:
after burying, the new sibling is gone and the interleaved session of the
remaining pools has no conflict. -/
theorem burying_interleave_no_sibling_conflict_witness :
    hasLearningSiblingConflict (interleave_anki_style
      ⟨[learnCardExample], [], []⟩) = false :=
  burying_interleave_no_sibling_conflict [learnCardExample] [] [newCardExample]
    [learnCardExample] [] []
    (by decide) (by decide) (by decide) (by decide) (by decide) (by decide)

end Danki
